import Mathlib

/-!
Verification development for the tsd-boom-types repository.

The repository consists of a single TypeScript ambient declaration file,
src/@types/boom.d.ts, which contains two successive versions of the same
declaration set (separated by a document marker): version 1 (lines 1-989)
and version 2 (lines 990-end). Both versions declare — without any
executable code — the public surface of the external boom game framework:
type aliases, interfaces (game objects, twenty component variants,
collisions, tweens, vectors) and ambient function signatures.

This file gives a shallow embedding of that artifact:

* `Ty` is an AST for the TypeScript type expressions that occur in the
  file. Sequences (function parameter lists, object member lists) are
  encoded as chains inside `Ty` (constructors `pnil`/`pcons` and
  `mnil`/`mcons`) so that decidable equality can be derived; the smart
  constructors `tyU`, `tyFn`, `tyObj` build these chains from ordinary
  lists, and the decoders recover them.
* `Decl` is an AST for top-level declarations; `isAmbient` holds exactly
  for compile-time-only constructs (no body, no statement, no
  initializer).
* Both versions of the declaration file are transcribed into these ASTs
  (`aliasesV1`, `ifacesV1`, `funcsV1`, `fileV1`, and the V2 versions).
* `HasTy` is a value-typing judgment (structural typing against the
  transcribed environment) used for the value-level claims.
* `exT` expands type aliases (each alias at most once along a path, so
  the self-referential `Vec2` alias terminates), which is how signatures
  of the two versions are compared.
-/

/-- AST of the TypeScript type expressions used in boom.d.ts.
Parameter lists are chains built from `pnil`/`pcons optional paramTy rest`;
object member lists are chains built from
`mnil`/`mcons name optional readonly memTy rest`.
`foreign` stands for a type declared outside this repository
(`hash`, `vmath.vector3`); `named` is a reference to a type alias or
interface declared in the file; `allOpt` is the TypeScript
`Partial` type operator; `luaMulti2` is a two-component
`LuaMultiReturn`; `indexObj k v` is an object type with a single index
signature. -/
inductive Ty where
  | num : Ty
  | str : Ty
  | boolT : Ty
  | voidT : Ty
  | undef : Ty
  | unknownT : Ty
  | objectT : Ty
  | numLit : Int → Ty
  | strLit : String → Ty
  | foreign : String → Ty
  | named : String → Ty
  | union : Ty → Ty → Ty
  | inter : Ty → Ty → Ty
  | arr : Ty → Ty
  | luaSet : Ty → Ty
  | luaMap : Ty → Ty → Ty
  | luaMulti2 : Ty → Ty → Ty
  | indexObj : Ty → Ty → Ty
  | allOpt : Ty → Ty
  | pnil : Ty
  | pcons : Bool → Ty → Ty → Ty
  | fn : Ty → Ty → Ty
  | fnRest : Ty → Ty → Ty → Ty
  | mnil : Ty
  | mcons : String → Bool → Bool → Ty → Ty → Ty
  | anonObj : Ty → Ty
  deriving DecidableEq

/-- A union type `A | B | C`, encoded right-nested. -/
def tyU : List Ty → Ty
  | [] => .unknownT
  | [t] => t
  | t :: rest => .union t (tyU rest)

/-- A parameter chain from a list of (optional?, type) pairs. -/
def tyParams : List (Bool × Ty) → Ty
  | [] => .pnil
  | p :: rest => .pcons p.1 p.2 (tyParams rest)

/-- A function type from a parameter list and return type. -/
def tyFn (ps : List (Bool × Ty)) (ret : Ty) : Ty := .fn (tyParams ps) ret

/-- One object-type member: (name, optional?, readonly?, type). -/
abbrev Mem := String × Bool × Bool × Ty

/-- A member chain from a list of members. -/
def tyMems : List Mem → Ty
  | [] => .mnil
  | m :: rest => .mcons m.1 m.2.1 m.2.2.1 m.2.2.2 (tyMems rest)

/-- An anonymous object type from a member list. -/
def tyObj (ms : List Mem) : Ty := .anonObj (tyMems ms)

/-- Decode a parameter chain back into a list. -/
def plist : Ty → List (Bool × Ty)
  | .pcons o t rest => (o, t) :: plist rest
  | _ => []

/-- The parameter list of a function type. -/
def paramsOf : Ty → List (Bool × Ty)
  | .fn ps _ => plist ps
  | .fnRest ps _ _ => plist ps
  | _ => []

/-- The return type of a function type. -/
def fnRet : Ty → Option Ty
  | .fn _ r => some r
  | .fnRest _ _ r => some r
  | _ => none

/-- Decode a member chain back into a list. -/
def memsOf : Ty → List Mem
  | .mcons n o r t rest => (n, o, r, t) :: memsOf rest
  | _ => []

/-- Look up a key in an association list. -/
def alookup {α : Type} : List (String × α) → String → Option α
  | [], _ => none
  | (k, v) :: rest, n => if k = n then some v else alookup rest n

/-- Find a member (optional?, readonly?, type) by name in a member list. -/
def findMem : List Mem → String → Option (Bool × Bool × Ty)
  | [], _ => none
  | m :: rest, n => if m.1 = n then some m.2 else findMem rest n

/-- Find a member by name in a member chain. -/
def findMemChain : Ty → String → Option (Bool × Bool × Ty)
  | .mcons m o r t rest, n => if m = n then some (o, r, t) else findMemChain rest n
  | _, _ => none

/-- Remove a key from an association list. -/
def removeKey : List (String × Ty) → String → List (String × Ty)
  | [], _ => []
  | (k, v) :: rest, n => if k = n then removeKey rest n else (k, v) :: removeKey rest n

/-- Expand type aliases inside a type. Each alias is expanded at most once
along any path (it is removed from the table for the recursive call), so
the self-referential alias Vec2 is expanded exactly one level. The fuel
argument only serves termination and is chosen large enough (100) that it
is never exhausted on the types of this development. -/
def exT : Nat → List (String × Ty) → Ty → Ty
  | 0, _, t => t
  | n + 1, E, t =>
    match t with
    | .named s =>
      (match alookup E s with
       | some t2 => exT n (removeKey E s) t2
       | none => .named s)
    | .union a b => .union (exT n E a) (exT n E b)
    | .inter a b => .inter (exT n E a) (exT n E b)
    | .arr a => .arr (exT n E a)
    | .luaSet a => .luaSet (exT n E a)
    | .luaMap a b => .luaMap (exT n E a) (exT n E b)
    | .luaMulti2 a b => .luaMulti2 (exT n E a) (exT n E b)
    | .indexObj a b => .indexObj (exT n E a) (exT n E b)
    | .allOpt a => .allOpt (exT n E a)
    | .pcons o a rest => .pcons o (exT n E a) (exT n E rest)
    | .fn ps r => .fn (exT n E ps) (exT n E r)
    | .fnRest ps rt r => .fnRest (exT n E ps) (exT n E rt) (exT n E r)
    | .mcons nm o ro a rest => .mcons nm o ro (exT n E a) (exT n E rest)
    | .anonObj c => .anonObj (exT n E c)
    | other => other

/-- Runtime values, used to express what the declared types accept. -/
inductive Val where
  | num : Int → Val
  | str : String → Val
  | boolV : Bool → Val
  | undefV : Val
  | foreignV : String → Val
  | fnV : Val
  | obj : List (String × Val) → Val
  | arrV : List Val → Val
  | setV : List Val → Val
  | mapV : List (Val × Val) → Val

/-- Look up a field of an object value. -/
def lookupField : List (String × Val) → String → Option Val
  | [], _ => none
  | (k, v) :: rest, n => if k = n then some v else lookupField rest n

/-- The string held in the tag field of an object value, if any. -/
def tagOf : Val → Option String
  | .obj fields =>
    (match lookupField fields "tag" with
     | some (.str s) => some s
     | _ => none)
  | _ => none

/-- The value held in the z field of an object value, if any. -/
def vZ : Val → Option Val
  | .obj fields => lookupField fields "z"
  | _ => none

/-- AST of top-level declarations. `dFunc` is an ambient function
signature; `dFuncImpl` would be a function with a body (with its
statement count), `dConstInit` a constant with a runtime initializer and
`dStatement` a top-level executable statement — these three never occur
in the transcription of boom.d.ts, which is what claim C8 is about. -/
inductive Decl where
  | dFunc : String → Ty → Decl
  | dFuncImpl : String → Ty → Nat → Decl
  | dInterface : String → Ty → Decl
  | dTypeAlias : String → Ty → Decl
  | dConst : String → Ty → Decl
  | dConstInit : String → Ty → Decl
  | dStatement : Decl
  | dNamespace : String → List Decl → Decl
  | dModule : String → List Decl → Decl

mutual
/-- A declaration is ambient if it carries no function body, no
statement and no runtime initializer, recursively through namespaces
and modules. -/
def isAmbient : Decl → Bool
  | .dFunc _ _ => true
  | .dFuncImpl _ _ _ => false
  | .dInterface _ _ => true
  | .dTypeAlias _ _ => true
  | .dConst _ _ => true
  | .dConstInit _ _ => false
  | .dStatement => false
  | .dNamespace _ ds => allAmbient ds
  | .dModule _ ds => allAmbient ds

/-- All declarations in a list are ambient. -/
def allAmbient : List Decl → Bool
  | [] => true
  | d :: rest => isAmbient d && allAmbient rest
end

/-!
Version 1 of boom.d.ts (lines 1-989 of src/@types/boom.d.ts).
-/

/-- Members of interface BoomBlankGameObject, version 1. -/
def goMemsV1 : List Mem :=
  [("add", false, false, tyFn [(false, .named "BoomComponentSet")] (.named "BoomGameObject")),
   ("destroy", false, false, tyFn [] .voidT),
   ("is", false, false, tyFn [(false, .str)] .boolT),
   ("use", false, false, tyFn [(false, .objectT)] .voidT),
   ("unuse", false, false, tyFn [(false, .str)] .voidT),
   ("c", false, false, tyFn [(false, .str)] .objectT),
   ("dirty", false, true, .boolT),
   ("children", false, true, .luaMap .unknownT .unknownT),
   ("comps", false, true, .luaMap (tyU [.str, .num]) (.luaMap .str .unknownT)),
   ("properties", false, true, .luaMap .str .unknownT),
   ("id", false, true, .foreign "hash"),
   ("ids", false, true, .luaMap (.foreign "hash") (.foreign "hash")),
   ("tags", false, true, .luaMap (tyU [.str, .foreign "hash"]) .boolT)]

/-- Members of interface Anchor, version 1. -/
def anchorMemsV1 : List Mem := [("tag", false, true, .strLit "anchor")]

/-- Members of interface AreaComp, version 1. -/
def areaMemsV1 : List Mem :=
  [("tag", false, true, .strLit "area"),
   ("get_collisions", false, false,
     tyFn [] (tyU [.arr (.named "Collision"), .luaSet (.named "Collision")])),
   ("check_collision", false, false,
     tyFn [(false, .named "BoomGameObject")] (.luaMulti2 .boolT (.named "Collision"))),
   ("on_collide", false, false,
     tyFn [(false, tyU [.str, .undef]), (false, .named "BoomCallback")] .voidT),
   ("on_click", false, false, tyFn [(false, .named "BoomCallback")] .voidT),
   ("has_point", false, false, tyFn [(false, .undef)] .boolT)]

/-- Members of interface BodyComp, version 1. -/
def bodyMemsV1 : List Mem :=
  [("tag", false, true, .strLit "body"),
   ("jump", false, false, tyFn [(false, .num)] .voidT),
   ("is_jumping", false, true, .boolT),
   ("is_grounded", false, true, .boolT),
   ("is_falling", false, true, .boolT),
   ("is_static", false, true, .boolT),
   ("jump_force", false, true, .num)]

/-- Members of interface ColorComp, version 1. -/
def colorMemsV1 : List Mem :=
  [("tag", false, true, .strLit "color"),
   ("color", false, true,
     tyObj [("darken", false, false, tyFn [(false, .num)] (.named "ColorComp")),
            ("invert", false, false, tyFn [] (.named "ColorComp")),
            ("clone", false, false, tyFn [] (.named "ColorComp")),
            ("lighten", false, false, tyFn [(false, .num)] (.named "ColorComp"))])]

/-- Members of interface DoubleJumpComp, version 1. -/
def doubleJumpMemsV1 : List Mem :=
  [("tag", false, true, .strLit "double_jump"),
   ("double_jump", false, false, tyFn [(false, .num)] .voidT),
   ("num_jumps", false, true, .num)]

/-- Members of interface FadeInComp, version 1. -/
def fadeInMemsV1 : List Mem := [("tag", false, true, .strLit "fadein")]

/-- Members of interface Fixed, version 1. -/
def fixedMemsV1 : List Mem := [("tag", false, true, .strLit "fixed")]

/-- Members of interface HealthComp, version 1. -/
def healthMemsV1 : List Mem :=
  [("tag", false, true, .strLit "health"),
   ("on_heal", false, false, tyFn [(false, .named "BoomCallback")] .voidT),
   ("on_hurt", false, false, tyFn [(false, .named "BoomCallback")] .voidT),
   ("on_death", false, false, tyFn [(false, .named "BoomCallback")] .voidT),
   ("heal", false, false, tyFn [(false, .num)] .voidT),
   ("hurt", false, false, tyFn [(false, .num)] .voidT)]

/-- Members of interface Lifespan, version 1. -/
def lifespanMemsV1 : List Mem := [("tag", false, true, .strLit "lifespan")]

/-- Members of interface Move, version 1. -/
def moveMemsV1 : List Mem := [("tag", false, true, .strLit "move")]

/-- Members of interface Offscreen, version 1. -/
def offscreenMemsV1 : List Mem :=
  [("tag", false, true, .strLit "offscreen"),
   ("on_exit_screen", false, false, tyFn [(false, .named "BoomCallback")] .voidT),
   ("on_enter_screen", false, false, tyFn [(false, .named "BoomCallback")] .voidT),
   ("is_offscreen", false, true, .boolT)]

/-- Members of interface Opacity, version 1. -/
def opacityMemsV1 : List Mem := [("tag", false, true, .strLit "opacity")]

/-- Members of interface Pos, version 1. -/
def posMemsV1 : List Mem :=
  [("tag", false, true, .strLit "pos"),
   ("move", false, false, tyFn [(false, .num), (false, .num)] .voidT),
   ("vel", false, true, .named "Vec2"),
   ("pos", false, true, .named "Vec2")]

/-- Members of interface Rotate, version 1. -/
def rotateMemsV1 : List Mem :=
  [("tag", false, true, .strLit "rotate"),
   ("rotate", false, false, tyFn [(false, .num)] .voidT)]

/-- Members of interface Scale, version 1. -/
def scaleMemsV1 : List Mem :=
  [("tag", false, true, .strLit "scale"),
   ("scale_to", false, false, tyFn [(false, .num), (true, .num)] .voidT),
   ("scale", false, true, .foreign "vmath.vector3")]

/-- Members of interface Sprite, version 1. -/
def spriteMemsV1 : List Mem :=
  [("tag", false, true, .strLit "sprite"),
   ("play", false, false, tyFn [(false, .str)] .voidT),
   ("stop", false, false, tyFn [] .voidT),
   ("height", false, true, .num),
   ("width", false, true, .num)]

/-- Members of interface Stay, version 1. -/
def stayMemsV1 : List Mem := [("tag", false, true, .strLit "stay")]

/-- Members of interface Text, version 1. -/
def textMemsV1 : List Mem := [("tag", false, true, .strLit "text")]

/-- Members of interface Timer, version 1. -/
def timerMemsV1 : List Mem :=
  [("tag", false, true, .strLit "timer"),
   ("wait", false, false, tyFn [(false, .num), (false, .named "BoomCallback")] .voidT),
   ("loop", false, false, tyFn [(false, .num), (false, .named "BoomCallback")] .voidT),
   ("cancel", false, false, tyFn [] .voidT)]

/-- Members of interface Z, version 1. -/
def zMemsV1 : List Mem := [("tag", false, true, .strLit "z")]

/-- Members of interface Collision, version 1 (declared empty, with a
TO-DO comment). -/
def collisionMemsV1 : List Mem := []

/-- Members of interface Tween, version 1. -/
def tweenMemsV1 : List Mem :=
  [("on_end", false, false, tyFn [(false, .named "BoomCallback")] .voidT),
   ("finish", false, false, tyFn [] .voidT),
   ("cancel", false, false, tyFn [] .voidT)]

/-- Names of the twenty component variant interfaces, in the order of the
BoomComponent union. -/
def variantNames : List String :=
  ["Anchor", "AreaComp", "BodyComp", "ColorComp", "DoubleJumpComp",
   "FadeInComp", "Fixed", "HealthComp", "Lifespan", "Move",
   "Offscreen", "Opacity", "Pos", "Rotate", "Scale",
   "Sprite", "Stay", "Text", "Timer", "Z"]

/-- The twenty component variant interfaces of version 1 with their
member lists, in union order. -/
def variantsV1 : List (String × List Mem) :=
  [("Anchor", anchorMemsV1), ("AreaComp", areaMemsV1), ("BodyComp", bodyMemsV1),
   ("ColorComp", colorMemsV1), ("DoubleJumpComp", doubleJumpMemsV1),
   ("FadeInComp", fadeInMemsV1), ("Fixed", fixedMemsV1), ("HealthComp", healthMemsV1),
   ("Lifespan", lifespanMemsV1), ("Move", moveMemsV1), ("Offscreen", offscreenMemsV1),
   ("Opacity", opacityMemsV1), ("Pos", posMemsV1), ("Rotate", rotateMemsV1),
   ("Scale", scaleMemsV1), ("Sprite", spriteMemsV1), ("Stay", stayMemsV1),
   ("Text", textMemsV1), ("Timer", timerMemsV1), ("Z", zMemsV1)]

/-- Members of the Vec2 object type (identical in both versions): the z
field is readonly and pinned to the literal 0. -/
def vec2Mems : List Mem :=
  [("x", false, false, .num),
   ("y", false, false, .num),
   ("z", false, true, .numLit 0),
   ("__type", false, true, .foreign "vmath.vector3"),
   ("dist", false, false, tyFn [(false, .named "Vec2")] .num)]

/-- The type alias bodies of version 1, in source order. -/
def aliasesV1 : List (String × Ty) :=
  [("BoomCallback", tyFn [] .voidT),
   ("BoomCancelEvent", tyFn [] .voidT),
   ("BoomGameObject", .inter (.named "BoomBlankGameObject") (.allOpt (.named "BoomComponent"))),
   ("BoomGameObjectSet", .luaSet (.named "BoomGameObject")),
   ("BoomComponentSet", tyU [.arr (.named "BoomComponent"), .luaSet (.named "BoomComponent")]),
   ("BoomComponent", tyU (variantNames.map .named)),
   ("BoomTiles", tyU [.indexObj .str (tyFn [] (.named "BoomComponentSet")),
                      .luaMap .str (tyFn [] (.named "BoomComponentSet"))]),
   ("Vec2", tyObj vec2Mems)]

/-- All interfaces of version 1 with their member lists. -/
def ifacesV1 : List (String × List Mem) :=
  ("BoomBlankGameObject", goMemsV1) :: variantsV1 ++
    [("Collision", collisionMemsV1), ("Tween", tweenMemsV1)]

/-- The ambient function signatures of version 1, in source order. -/
def funcsV1 : List (String × Ty) :=
  [("add", tyFn [(false, .named "BoomComponentSet")] (.named "BoomGameObject")),
   ("destroy", tyFn [(false, .named "BoomGameObject")] .voidT),
   ("destroy_all", tyFn [(true, .str)] .voidT),
   ("object", tyFn [(false, .str)] (tyU [.named "BoomGameObject", .undef])),
   ("objects", tyFn [] (.named "BoomGameObjectSet")),
   ("get", tyFn [(true, .str)] (.named "BoomGameObjectSet")),
   ("every", tyFn [(false, .str), (false, tyFn [(false, .named "BoomGameObject")] .voidT)] .voidT),
   ("anchor", tyFn [(false, tyU [.strLit "center", .strLit "topleft", .strLit "left",
      .strLit "topright", .strLit "right", .strLit "bottomright", .strLit "bottom",
      .strLit "bottomleft"])] (.named "Anchor")),
   ("area", tyFn [(true, tyObj [("width", true, false, .num), ("height", true, false, .num),
      ("radius", true, false, .num),
      ("shape", true, false, tyU [.strLit "auto", .strLit "rect", .strLit "circle",
        .strLit "auto-circle"])])] (.named "AreaComp")),
   ("body", tyFn [(true, tyObj [("jump_force", true, false, .num),
      ("is_static", true, false, .boolT)])] (.named "BodyComp")),
   ("color", tyFn [(true, .num), (true, .num), (true, .num), (true, .num)] (.named "ColorComp")),
   ("double_jump", tyFn [(true, tyObj [("num_jumps", true, false, .num)])]
      (.named "DoubleJumpComp")),
   ("fadein", tyFn [(true, .num)] (.named "FadeInComp")),
   ("fixed", tyFn [] (.named "Fixed")),
   ("health", tyFn [(true, .num)] (.named "HealthComp")),
   ("lifespan", tyFn [(false, .num), (true, tyObj [("fade", true, false, .num)])]
      (.named "Lifespan")),
   ("move", tyFn [(true, .named "Vec2"), (true, .num)] (.named "Move")),
   ("offscreen", tyFn [(true, tyObj [("distance", true, false, .num),
      ("destroy", true, false, .boolT)])] (.named "Offscreen")),
   ("opacity", tyFn [(true, .num)] (.named "Opacity")),
   ("pos", tyFn [(false, .num), (false, .num)] (.named "Pos")),
   ("rotate", tyFn [(true, .num)] (.named "Rotate")),
   ("scale", tyFn [(true, .num), (true, .num)] (.named "Scale")),
   ("sprite", tyFn [(true, .str), (true, tyObj [
      ("atlas", true, false, tyU [.str, .foreign "hash"]),
      ("flip_x", true, false, .boolT), ("flip_y", true, false, .boolT),
      ("width", true, false, .num), ("height", true, false, .num)])] (.named "Sprite")),
   ("stay", tyFn [] (.named "Stay")),
   ("text", tyFn [(true, .str), (true, tyObj [("font", true, false, .str),
      ("align", true, false, tyU [.strLit "left", .strLit "right", .strLit "center"]),
      ("width", true, false, .num)])] (.named "Text")),
   ("timer", tyFn [(true, .num), (true, .named "BoomCallback")] (.named "Timer")),
   ("z", tyFn [(true, .num)] (.named "Z")),
   ("on_collide", tyFn [(false, .str), (false, tyU [.str, .undef]),
      (false, tyFn [(false, .named "Collision"), (false, .named "BoomCancelEvent")] .voidT)]
      (.named "BoomCancelEvent")),
   ("on_key_press", tyFn [(false, tyU [.str, .undef]), (false, .named "BoomCallback")]
      (.named "BoomCancelEvent")),
   ("on_key_release", tyFn [(false, tyU [.str, .undef]), (false, .named "BoomCallback")]
      (.named "BoomCancelEvent")),
   ("on_click", tyFn [(false, tyU [.str, .undef]), (false, .named "BoomCallback")]
      (.named "BoomCancelEvent")),
   ("on_mouse_press", tyFn [(false, .named "BoomCallback")] (.named "BoomCancelEvent")),
   ("on_mouse_release", tyFn [(false, .named "BoomCallback")] (.named "BoomCancelEvent")),
   ("on_mouse_move", tyFn [(false, .named "BoomCallback")] (.named "BoomCancelEvent")),
   ("on_update", tyFn [(false, tyU [.str, .undef]),
      (false, tyFn [(false, .named "BoomGameObject"),
        (false, tyFn [(false, .named "BoomGameObject"), (false, .named "BoomCancelEvent")]
          .voidT)] .voidT)] .voidT),
   ("add_level", tyFn [(false, tyU [.arr .str, .luaSet .str]),
      (false, tyObj [("tile_width", true, false, .num), ("tile_height", true, false, .num),
        ("pos", true, false, .named "Vec2"), ("tiles", true, false, .named "BoomTiles")])]
      (.named "BoomGameObject")),
   ("rand", tyFn [(true, .num), (true, .num)] .num),
   ("randi", tyFn [(true, .num), (true, .num)] .num),
   ("rgb", tyFn [(true, .num), (true, .num), (true, .num), (true, .num)] (.named "ColorComp")),
   ("tween", tyFn [(false, tyU [.num, .named "Vec2"]), (false, tyU [.num, .named "Vec2"]),
      (false, .num), (false, tyU [.str, .undef]),
      (false, tyFn [(false, tyU [.num, .named "Vec2"])] .voidT)] (.named "Tween")),
   ("vec2", tyFn [(true, .num), (true, .num)] (.named "Vec2")),
   ("scene", tyFn [(false, .str), (false, .fnRest .pnil (.arr .unknownT) .voidT)] .voidT),
   ("show", .fnRest (tyParams [(false, .str)]) (.arr .unknownT) .voidT),
   ("wait", tyFn [(false, .num), (false, .named "BoomCallback")] (.named "BoomCancelEvent")),
   ("loop", tyFn [(false, .num), (false, .named "BoomCallback")] (.named "BoomCancelEvent")),
   ("is_key_down", tyFn [(true, .str)] .boolT),
   ("mouse_pos", tyFn [] (.named "Vec2")),
   ("cam_pos", tyFn [(true, tyU [.num, .named "Vec2"]), (true, .num)] (.named "Vec2")),
   ("cam_rot", tyFn [(true, .num)] .num),
   ("cam_zoom", tyFn [(true, .num)] .num),
   ("get_gravity", tyFn [] .num),
   ("set_gravity", tyFn [(false, .num)] .voidT),
   ("width", tyFn [] .num),
   ("height", tyFn [] .num),
   ("center", tyFn [] (.named "Vec2")),
   ("dt", tyFn [] .num),
   ("time", tyFn [] .num)]

/-- The declarations inside namespace rgb, version 1. -/
def rgbNsV1 : List Decl :=
  [.dConst "RED" (.named "ColorComp"), .dConst "GREEN" (.named "ColorComp"),
   .dConst "BLUE" (.named "ColorComp"), .dConst "BLACK" (.named "ColorComp"),
   .dConst "WHITE" (.named "ColorComp"),
   .dFunc "from_hex" (tyFn [(false, .str)] (.named "ColorComp"))]

/-- The declarations inside namespace vec2, version 1. -/
def vec2NsV1 : List Decl :=
  [.dConst "UP" (.named "Vec2"), .dConst "RIGHT" (.named "Vec2"),
   .dConst "DOWN" (.named "Vec2"), .dConst "LEFT" (.named "Vec2")]

/-- The exported function of module boom.boom (both versions). -/
def boomSig : Ty := tyFn [(false, tyFn [] .voidT)] .voidT

/-- Every top-level construct of version 1 of boom.d.ts, grouped by kind
(aliases, the ambient module, interfaces, function signatures,
namespaces); the source interleaves the groups but contains exactly
these constructs. -/
def fileV1 : List Decl :=
  aliasesV1.map (fun p => .dTypeAlias p.1 p.2)
  ++ [.dModule "boom.boom" [.dFunc "boom" boomSig]]
  ++ ifacesV1.map (fun p => .dInterface p.1 (tyObj p.2))
  ++ funcsV1.map (fun p => .dFunc p.1 p.2)
  ++ [.dNamespace "rgb" rgbNsV1, .dNamespace "vec2" vec2NsV1]

/-- The value-typing environment of version 1: aliases plus interfaces. -/
def envV1 : List (String × Ty) :=
  aliasesV1 ++ ifacesV1.map (fun p => (p.1, tyObj p.2))

/-!
Version 2 of boom.d.ts (lines 990-2199 of src/@types/boom.d.ts).
-/

/-- Members of interface BoomBlankGameObject, version 2. -/
def goMemsV2 : List Mem :=
  [("add", false, false, tyFn [(false, .named "BoomComponentOrTagSet")] (.named "BoomGameObject")),
   ("destroy", false, false, tyFn [] .voidT),
   ("is", false, false, tyFn [(false, .named "BoomTag")] .boolT),
   ("use", false, false, tyFn [(false, .named "BoomComponent")] .voidT),
   ("unuse", false, false, tyFn [(false, .named "BoomTag")] .voidT),
   ("c", false, false, tyFn [(false, .named "BoomTag")] .objectT),
   ("dirty", false, true, .boolT),
   ("children", false, true, .luaMap .unknownT .unknownT),
   ("comps", false, true, .luaMap (tyU [.str, .num]) (.luaMap .str .unknownT)),
   ("properties", false, true, .luaMap .str .unknownT),
   ("id", false, true, .foreign "hash"),
   ("ids", false, true, .luaMap (.foreign "hash") (.foreign "hash")),
   ("tags", false, true, .luaMap (tyU [.str, .foreign "hash"]) .boolT)]

/-- Members of interface Anchor, version 2 (tag is optional here). -/
def anchorMemsV2 : List Mem := [("tag", true, true, .strLit "anchor")]

/-- Members of interface AreaComp, version 2. -/
def areaMemsV2 : List Mem :=
  [("tag", true, true, .strLit "area"),
   ("get_collisions", false, false,
     tyFn [] (tyU [.arr (.named "BoomCollision"), .luaSet (.named "BoomCollision")])),
   ("check_collision", false, false,
     tyFn [(false, .named "BoomGameObject")] (.luaMulti2 .boolT (.named "BoomCollision"))),
   ("on_collide", false, false,
     tyFn [(false, tyU [.str, .undef]),
           (false, tyFn [(false, .named "BoomCollision")] .voidT)] .voidT),
   ("on_click", false, false, tyFn [(false, .named "BoomObjectCallback")] .voidT),
   ("has_point", false, false, tyFn [(false, .undef)] .boolT)]

/-- Members of interface BodyComp, version 2. -/
def bodyMemsV2 : List Mem :=
  [("tag", true, true, .strLit "body"),
   ("jump", false, false, tyFn [(false, .num)] .voidT),
   ("is_jumping", false, true, .boolT),
   ("is_grounded", false, true, .boolT),
   ("is_falling", false, true, .boolT),
   ("is_static", false, true, .boolT),
   ("jump_force", false, true, .num)]

/-- Members of interface ColorComp, version 2. -/
def colorMemsV2 : List Mem :=
  [("tag", true, true, .strLit "color"),
   ("color", false, true,
     tyObj [("darken", false, false, tyFn [(false, .num)] (.named "ColorComp")),
            ("invert", false, false, tyFn [] (.named "ColorComp")),
            ("clone", false, false, tyFn [] (.named "ColorComp")),
            ("lighten", false, false, tyFn [(false, .num)] (.named "ColorComp"))])]

/-- Members of interface DoubleJumpComp, version 2. -/
def doubleJumpMemsV2 : List Mem :=
  [("tag", true, true, .strLit "double_jump"),
   ("double_jump", false, false, tyFn [(false, .num)] .voidT),
   ("num_jumps", false, true, .num)]

/-- Members of interface FadeInComp, version 2. -/
def fadeInMemsV2 : List Mem := [("tag", true, true, .strLit "fadein")]

/-- Members of interface Fixed, version 2. -/
def fixedMemsV2 : List Mem := [("tag", true, true, .strLit "fixed")]

/-- Members of interface HealthComp, version 2. -/
def healthMemsV2 : List Mem :=
  [("tag", true, true, .strLit "health"),
   ("on_heal", false, false, tyFn [(false, tyFn [] .voidT)] .voidT),
   ("on_hurt", false, false, tyFn [(false, tyFn [] .voidT)] .voidT),
   ("on_death", false, false, tyFn [(false, tyFn [] .voidT)] .voidT),
   ("heal", false, false, tyFn [(false, .num)] .voidT),
   ("hurt", false, false, tyFn [(false, .num)] .voidT)]

/-- Members of interface Lifespan, version 2. -/
def lifespanMemsV2 : List Mem := [("tag", true, true, .strLit "lifespan")]

/-- Members of interface Move, version 2. -/
def moveMemsV2 : List Mem := [("tag", true, true, .strLit "move")]

/-- Members of interface Offscreen, version 2. -/
def offscreenMemsV2 : List Mem :=
  [("tag", true, true, .strLit "offscreen"),
   ("on_exit_screen", false, false, tyFn [(false, tyFn [] .voidT)] .voidT),
   ("on_enter_screen", false, false, tyFn [(false, tyFn [] .voidT)] .voidT),
   ("is_offscreen", false, true, .boolT)]

/-- Members of interface Opacity, version 2. -/
def opacityMemsV2 : List Mem := [("tag", true, true, .strLit "opacity")]

/-- Members of interface Pos, version 2. -/
def posMemsV2 : List Mem :=
  [("tag", true, true, .strLit "pos"),
   ("move", false, false, tyFn [(false, .num), (false, .num)] .voidT),
   ("vel", false, true, .named "Vec2"),
   ("pos", false, true, .named "Vec2")]

/-- Members of interface Rotate, version 2. -/
def rotateMemsV2 : List Mem :=
  [("tag", true, true, .strLit "rotate"),
   ("rotate", false, false, tyFn [(false, .num)] .voidT)]

/-- Members of interface Scale, version 2. -/
def scaleMemsV2 : List Mem :=
  [("tag", true, true, .strLit "scale"),
   ("scale_to", false, false, tyFn [(false, .num), (true, .num)] .voidT),
   ("scale", false, true, .foreign "vmath.vector3")]

/-- Members of interface Sprite, version 2. -/
def spriteMemsV2 : List Mem :=
  [("tag", true, true, .strLit "sprite"),
   ("play", false, false, tyFn [(false, .str)] .voidT),
   ("stop", false, false, tyFn [] .voidT),
   ("height", false, true, .num),
   ("width", false, true, .num)]

/-- Members of interface Stay, version 2. -/
def stayMemsV2 : List Mem := [("tag", true, true, .strLit "stay")]

/-- Members of interface Text, version 2. -/
def textMemsV2 : List Mem := [("tag", true, true, .strLit "text")]

/-- Members of interface Timer, version 2. -/
def timerMemsV2 : List Mem :=
  [("tag", true, true, .strLit "timer"),
   ("wait", false, false, tyFn [(false, .num), (false, tyFn [] .voidT)] .voidT),
   ("loop", false, false, tyFn [(false, .num), (false, tyFn [] .voidT)] .voidT),
   ("cancel", false, false, tyFn [] .voidT)]

/-- Members of interface Z, version 2. -/
def zMemsV2 : List Mem := [("tag", true, true, .strLit "z")]

/-- Members of interface BoomCollision, version 2. -/
def boomCollisionMemsV2 : List Mem :=
  [("normal", false, false, .foreign "vmath.vector3"),
   ("distance", false, false, .num),
   ("source", false, false, .named "BoomGameObject"),
   ("target", false, false, .named "BoomGameObject")]

/-- Members of interface Tween, version 2. -/
def tweenMemsV2 : List Mem :=
  [("on_end", false, false, tyFn [(false, tyFn [] .voidT)] .voidT),
   ("finish", false, false, tyFn [] .voidT),
   ("cancel", false, false, tyFn [] .voidT)]

/-- The twenty component variant interfaces of version 2 with their
member lists, in union order. -/
def variantsV2 : List (String × List Mem) :=
  [("Anchor", anchorMemsV2), ("AreaComp", areaMemsV2), ("BodyComp", bodyMemsV2),
   ("ColorComp", colorMemsV2), ("DoubleJumpComp", doubleJumpMemsV2),
   ("FadeInComp", fadeInMemsV2), ("Fixed", fixedMemsV2), ("HealthComp", healthMemsV2),
   ("Lifespan", lifespanMemsV2), ("Move", moveMemsV2), ("Offscreen", offscreenMemsV2),
   ("Opacity", opacityMemsV2), ("Pos", posMemsV2), ("Rotate", rotateMemsV2),
   ("Scale", scaleMemsV2), ("Sprite", spriteMemsV2), ("Stay", stayMemsV2),
   ("Text", textMemsV2), ("Timer", timerMemsV2), ("Z", zMemsV2)]

/-- The type alias bodies of version 2, in source order. -/
def aliasesV2 : List (String × Ty) :=
  [("BoomObjectCallback", tyFn [(false, .named "BoomGameObject")] .voidT),
   ("BoomEventCallback", tyFn [(false, .named "BoomCancelEvent")] .voidT),
   ("BoomCancelEvent", tyFn [] .voidT),
   ("BoomTag", .str),
   ("BoomGameObject", .inter (.named "BoomBlankGameObject") (.allOpt (.named "BoomComponent"))),
   ("BoomComponentOrTagSet", tyU [.arr (tyU [.named "BoomComponent", .named "BoomTag"]),
                                  .luaSet (tyU [.named "BoomComponent", .named "BoomTag"])]),
   ("BoomComponent", tyU (variantNames.map .named)),
   ("BoomTiles", tyU [.indexObj .str (tyFn [] (.named "BoomComponentOrTagSet")),
                      .luaMap .str (tyFn [] (.named "BoomComponentOrTagSet"))]),
   ("Vec2", tyObj vec2Mems)]

/-- All interfaces of version 2 with their member lists. -/
def ifacesV2 : List (String × List Mem) :=
  ("BoomBlankGameObject", goMemsV2) :: variantsV2 ++
    [("BoomCollision", boomCollisionMemsV2), ("Tween", tweenMemsV2)]

/-- The ambient function signatures of version 2, in source order. -/
def funcsV2 : List (String × Ty) :=
  [("add", tyFn [(false, .named "BoomComponentOrTagSet")] (.named "BoomGameObject")),
   ("destroy", tyFn [(false, .named "BoomGameObject")] .voidT),
   ("destroy_all", tyFn [(true, .str)] .voidT),
   ("object", tyFn [(false, .str)] (tyU [.named "BoomGameObject", .undef])),
   ("objects", tyFn [] (.luaSet (.named "BoomGameObject"))),
   ("get", tyFn [(true, .str)] (.luaSet (.named "BoomGameObject"))),
   ("every", tyFn [(false, .str), (false, .named "BoomObjectCallback")] .voidT),
   ("anchor", tyFn [(false, tyU [.strLit "center", .strLit "topleft", .strLit "left",
      .strLit "topright", .strLit "right", .strLit "bottomright", .strLit "bottom",
      .strLit "bottomleft"])] (.named "Anchor")),
   ("area", tyFn [(true, tyObj [("width", true, false, .num), ("height", true, false, .num),
      ("radius", true, false, .num),
      ("shape", true, false, tyU [.strLit "auto", .strLit "rect", .strLit "circle",
        .strLit "auto-circle"])])] (.named "AreaComp")),
   ("body", tyFn [(true, tyObj [("jump_force", true, false, .num),
      ("is_static", true, false, .boolT)])] (.named "BodyComp")),
   ("color", tyFn [(true, .num), (true, .num), (true, .num), (true, .num)] (.named "ColorComp")),
   ("double_jump", tyFn [(true, tyObj [("num_jumps", true, false, .num)])]
      (.named "DoubleJumpComp")),
   ("fadein", tyFn [(true, .num)] (.named "FadeInComp")),
   ("fixed", tyFn [] (.named "Fixed")),
   ("health", tyFn [(true, .num)] (.named "HealthComp")),
   ("lifespan", tyFn [(false, .num), (true, tyObj [("fade", true, false, .num)])]
      (.named "Lifespan")),
   ("move", tyFn [(false, .named "Vec2"), (false, .num)] (.named "Move")),
   ("offscreen", tyFn [(true, tyObj [("distance", true, false, .num),
      ("destroy", true, false, .boolT)])] (.named "Offscreen")),
   ("opacity", tyFn [(true, .num)] (.named "Opacity")),
   ("pos", tyFn [(false, .num), (false, .num)] (.named "Pos")),
   ("rotate", tyFn [(true, .num)] (.named "Rotate")),
   ("scale", tyFn [(true, .num), (true, .num)] (.named "Scale")),
   ("sprite", tyFn [(true, .str), (true, tyObj [
      ("atlas", true, false, tyU [.str, .foreign "hash"]),
      ("flip_x", true, false, .boolT), ("flip_y", true, false, .boolT),
      ("width", true, false, .num), ("height", true, false, .num)])] (.named "Sprite")),
   ("stay", tyFn [] (.named "Stay")),
   ("text", tyFn [(true, .str), (true, tyObj [("font", true, false, .str),
      ("align", true, false, tyU [.strLit "left", .strLit "right", .strLit "center"]),
      ("width", true, false, .num)])] (.named "Text")),
   ("timer", tyFn [(true, .num), (true, tyFn [] .voidT)] (.named "Timer")),
   ("z", tyFn [(true, .num)] (.named "Z")),
   ("on_collide", tyFn [(false, .str), (false, tyU [.str, .undef]),
      (false, tyFn [(false, .named "BoomCollision"), (false, .named "BoomCancelEvent")] .voidT)]
      (.named "BoomCancelEvent")),
   ("on_key_press", tyFn [(false, .str), (false, .named "BoomEventCallback")]
      (.named "BoomCancelEvent")),
   ("on_key_release", tyFn [(false, .str), (false, .named "BoomEventCallback")]
      (.named "BoomCancelEvent")),
   ("on_click", tyFn [(false, tyU [.str, .undef]), (false, .named "BoomObjectCallback")]
      (.named "BoomCancelEvent")),
   ("on_mouse_press", tyFn [(false, tyFn [] .voidT)] (.named "BoomCancelEvent")),
   ("on_mouse_release", tyFn [(false, tyFn [] .voidT)] (.named "BoomCancelEvent")),
   ("on_mouse_move", tyFn [(false, tyFn [] .voidT)] (.named "BoomCancelEvent")),
   ("on_update", tyFn [(false, tyU [.str, .undef]),
      (false, tyFn [(false, .named "BoomGameObject"),
        (false, tyFn [(false, .named "BoomGameObject"), (false, .named "BoomCancelEvent")]
          .voidT)] .voidT)] .voidT),
   ("add_level", tyFn [(false, tyU [.arr .str, .luaSet .str]),
      (false, tyObj [("tile_width", true, false, .num), ("tile_height", true, false, .num),
        ("pos", true, false, .named "Vec2"), ("tiles", true, false, .named "BoomTiles")])]
      (.named "BoomGameObject")),
   ("rand", tyFn [(true, .num), (true, .num)] .num),
   ("randi", tyFn [(true, .num), (true, .num)] .num),
   ("rgb", tyFn [(true, .num), (true, .num), (true, .num), (true, .num)] (.named "ColorComp")),
   ("from_hex", tyFn [(false, .str)] (.named "ColorComp")),
   ("tween", tyFn [(false, tyU [.num, .named "Vec2"]), (false, tyU [.num, .named "Vec2"]),
      (false, .num), (false, tyU [.str, .undef]),
      (false, tyFn [(false, tyU [.num, .named "Vec2"])] .voidT)] (.named "Tween")),
   ("vec2", tyFn [(true, .num), (true, .num)] (.named "Vec2")),
   ("scene", tyFn [(false, .str), (false, .fnRest .pnil (.arr .unknownT) .voidT)] .voidT),
   ("show", .fnRest (tyParams [(false, .str)]) (.arr .unknownT) .voidT),
   ("wait", tyFn [(false, .num), (false, tyFn [] .voidT)] (.named "BoomCancelEvent")),
   ("loop", tyFn [(false, .num), (false, tyFn [] .voidT)] (.named "BoomCancelEvent")),
   ("is_key_down", tyFn [(true, .str)] .boolT),
   ("mouse_pos", tyFn [] (.named "Vec2")),
   ("cam_pos", tyFn [(true, tyU [.num, .named "Vec2"]), (true, .num)] (.named "Vec2")),
   ("cam_rot", tyFn [(true, .num)] .num),
   ("cam_zoom", tyFn [(true, .num)] .num),
   ("get_gravity", tyFn [] .num),
   ("set_gravity", tyFn [(false, .num)] .voidT),
   ("width", tyFn [] .num),
   ("height", tyFn [] .num),
   ("center", tyFn [] (.named "Vec2")),
   ("dt", tyFn [] .num),
   ("time", tyFn [] .num)]

/-- The top-level ambient constants of version 2 (version 1 has these
only inside the rgb and vec2 namespaces). -/
def constsV2 : List (String × Ty) :=
  [("RED", .named "ColorComp"), ("GREEN", .named "ColorComp"),
   ("BLUE", .named "ColorComp"), ("BLACK", .named "ColorComp"),
   ("WHITE", .named "ColorComp"),
   ("UP", .named "Vec2"), ("RIGHT", .named "Vec2"),
   ("DOWN", .named "Vec2"), ("LEFT", .named "Vec2")]

/-- The declarations inside namespace rgb, version 2 (same as version 1). -/
def rgbNsV2 : List Decl :=
  [.dConst "RED" (.named "ColorComp"), .dConst "GREEN" (.named "ColorComp"),
   .dConst "BLUE" (.named "ColorComp"), .dConst "BLACK" (.named "ColorComp"),
   .dConst "WHITE" (.named "ColorComp"),
   .dFunc "from_hex" (tyFn [(false, .str)] (.named "ColorComp"))]

/-- The declarations inside namespace vec2, version 2 (same as version 1). -/
def vec2NsV2 : List Decl :=
  [.dConst "UP" (.named "Vec2"), .dConst "RIGHT" (.named "Vec2"),
   .dConst "DOWN" (.named "Vec2"), .dConst "LEFT" (.named "Vec2")]

/-- Every top-level construct of version 2 of boom.d.ts, grouped by kind. -/
def fileV2 : List Decl :=
  aliasesV2.map (fun p => .dTypeAlias p.1 p.2)
  ++ [.dModule "boom.boom" [.dFunc "boom" boomSig]]
  ++ ifacesV2.map (fun p => .dInterface p.1 (tyObj p.2))
  ++ funcsV2.map (fun p => .dFunc p.1 p.2)
  ++ constsV2.map (fun p => .dConst p.1 p.2)
  ++ [.dNamespace "rgb" rgbNsV2, .dNamespace "vec2" vec2NsV2]

/-- The value-typing environment of version 2: aliases plus interfaces. -/
def envV2 : List (String × Ty) :=
  aliasesV2 ++ ifacesV2.map (fun p => (p.1, tyObj p.2))

/-- Alias expansion with the version 1 alias table. -/
def ex1 (t : Ty) : Ty := exT 100 aliasesV1 t

/-- Alias expansion with the version 2 alias table. -/
def ex2 (t : Ty) : Ty := exT 100 aliasesV2 t

/-!
Value typing. `HasTy E v t` is structural typing of runtime values
against the transcribed type expressions, resolving `named` references
in the environment `E` (one of `envV1`, `envV2`). Function members are
not inspected beyond being function values, mirroring the fact that a
runtime function value carries no signature; object typing is
width-subtyping (extra fields are allowed), as in TypeScript. Types for
which no rule is needed by the claims (intersections, Partial, maps
with constraints, multi-returns, index signatures) have no rule.
-/
inductive HasTy (E : List (String × Ty)) : Val → Ty → Prop where
  | numI (q : Int) : HasTy E (.num q) .num
  | strI (s : String) : HasTy E (.str s) .str
  | boolI (b : Bool) : HasTy E (.boolV b) .boolT
  | undefI : HasTy E .undefV .undef
  | unknownI (v : Val) : HasTy E v .unknownT
  | numLitI (q : Int) : HasTy E (.num q) (.numLit q)
  | strLitI (s : String) : HasTy E (.str s) (.strLit s)
  | foreignI (k : String) : HasTy E (.foreignV k) (.foreign k)
  | objectI (fields : List (String × Val)) : HasTy E (.obj fields) .objectT
  | fnI (ps r : Ty) : HasTy E .fnV (.fn ps r)
  | fnRestI (ps rt r : Ty) : HasTy E .fnV (.fnRest ps rt r)
  | namedI (v : Val) (s : String) (t : Ty) :
      alookup E s = some t → HasTy E v t → HasTy E v (.named s)
  | unionL (v : Val) (a b : Ty) : HasTy E v a → HasTy E v (.union a b)
  | unionR (v : Val) (a b : Ty) : HasTy E v b → HasTy E v (.union a b)
  | arrI (vs : List Val) (t : Ty) : (∀ v ∈ vs, HasTy E v t) → HasTy E (.arrV vs) (.arr t)
  | setI (vs : List Val) (t : Ty) : (∀ v ∈ vs, HasTy E v t) → HasTy E (.setV vs) (.luaSet t)
  | objNil (fields : List (String × Val)) : HasTy E (.obj fields) (.anonObj .mnil)
  | objConsP (fields : List (String × Val)) (n : String) (o ro : Bool) (t rest : Ty)
      (fv : Val) :
      lookupField fields n = some fv → HasTy E fv t →
      HasTy E (.obj fields) (.anonObj rest) →
      HasTy E (.obj fields) (.anonObj (.mcons n o ro t rest))
  | objConsA (fields : List (String × Val)) (n : String) (ro : Bool) (t rest : Ty) :
      lookupField fields n = none →
      HasTy E (.obj fields) (.anonObj rest) →
      HasTy E (.obj fields) (.anonObj (.mcons n true ro t rest))

/-- Inverting a union typing. -/
theorem union_inv {E : List (String × Ty)} {v : Val} {a b : Ty}
    (h : HasTy E v (.union a b)) : HasTy E v a ∨ HasTy E v b := by
  cases h with
  | unionL _ _ _ h => exact Or.inl h
  | unionR _ _ _ h => exact Or.inr h

/-- Inverting a named-reference typing. -/
theorem named_inv {E : List (String × Ty)} {v : Val} {s : String}
    (h : HasTy E v (.named s)) : ∃ t, alookup E s = some t ∧ HasTy E v t := by
  cases h with
  | namedI _ _ t hlk ht => exact ⟨t, hlk, ht⟩

/-- A value typed against an object type is an object. -/
theorem anon_obj_val {E : List (String × Ty)} {v : Val} {c : Ty}
    (h : HasTy E v (.anonObj c)) : ∃ fields, v = .obj fields := by
  cases h with
  | objNil fields => exact ⟨fields, rfl⟩
  | objConsP fields _ _ _ _ _ _ _ _ _ => exact ⟨fields, rfl⟩
  | objConsA fields _ _ _ _ _ _ => exact ⟨fields, rfl⟩

/-- A value of a string literal type is that string. -/
theorem strLit_inv {E : List (String × Ty)} {v : Val} {s : String}
    (h : HasTy E v (.strLit s)) : v = .str s := by
  cases h; rfl

/-- A value of a numeric literal type is that number. -/
theorem numLit_inv {E : List (String × Ty)} {v : Val} {q : Int}
    (h : HasTy E v (.numLit q)) : v = .num q := by
  cases h; rfl

/-- A value of type undefined is the undefined value. -/
theorem undef_inv {E : List (String × Ty)} {v : Val}
    (h : HasTy E v .undef) : v = .undefV := by
  cases h; rfl

/-- A member required by an object type is present in the value and well
typed. -/
theorem mem_req {E : List (String × Ty)} :
    ∀ (c : Ty) (fields : List (String × Val)) (n : String) (ro : Bool) (t : Ty),
      HasTy E (.obj fields) (.anonObj c) →
      findMemChain c n = some (false, ro, t) →
      ∃ fv, lookupField fields n = some fv ∧ HasTy E fv t := by
  intro c
  induction c with
  | mcons m o r mt rest ihmt ihrest =>
    intro fields n ro t h hfm
    simp only [findMemChain] at hfm
    by_cases hmn : m = n
    · subst hmn
      rw [if_pos rfl] at hfm
      simp only [Option.some.injEq, Prod.mk.injEq] at hfm
      obtain ⟨rfl, rfl, rfl⟩ := hfm
      cases h with
      | objConsP _ _ _ _ _ _ fv hf hty _ => exact ⟨fv, hf, hty⟩
    · rw [if_neg hmn] at hfm
      cases h with
      | objConsP _ _ _ _ _ _ fv hf hty hrest => exact ihrest fields n ro t hrest hfm
      | objConsA _ _ _ _ _ hf hrest => exact ihrest fields n ro t hrest hfm
  | mnil =>
    intro fields n ro t _ hfm
    simp [findMemChain] at hfm
  | _ =>
    intro fields n ro t h _
    cases h

/-- A member declared by an object type is, when present in the value,
well typed. -/
theorem mem_opt {E : List (String × Ty)} :
    ∀ (c : Ty) (fields : List (String × Val)) (n : String) (o ro : Bool) (t : Ty),
      HasTy E (.obj fields) (.anonObj c) →
      findMemChain c n = some (o, ro, t) →
      lookupField fields n = none ∨
        ∃ fv, lookupField fields n = some fv ∧ HasTy E fv t := by
  intro c
  induction c with
  | mcons m mo r mt rest ihmt ihrest =>
    intro fields n o ro t h hfm
    simp only [findMemChain] at hfm
    by_cases hmn : m = n
    · subst hmn
      rw [if_pos rfl] at hfm
      simp only [Option.some.injEq, Prod.mk.injEq] at hfm
      obtain ⟨rfl, rfl, rfl⟩ := hfm
      cases h with
      | objConsP _ _ _ _ _ _ fv hf hty _ => exact Or.inr ⟨fv, hf, hty⟩
      | objConsA _ _ _ _ _ hf _ => exact Or.inl hf
    · rw [if_neg hmn] at hfm
      cases h with
      | objConsP _ _ _ _ _ _ fv hf hty hrest => exact ihrest fields n o ro t hrest hfm
      | objConsA _ _ _ _ _ hf hrest => exact ihrest fields n o ro t hrest hfm
  | mnil =>
    intro fields n o ro t _ hfm
    simp [findMemChain] at hfm
  | _ =>
    intro fields n o ro t h _
    cases h

/-- Introduce a union typing from membership in the encoded list. -/
theorem tyU_mem {E : List (String × Ty)} {v : Val} :
    ∀ (l : List Ty) (t : Ty), t ∈ l → HasTy E v t → HasTy E v (tyU l) := by
  intro l
  induction l with
  | nil => intro t ht _; cases ht
  | cons a rest ih =>
    intro t ht hv
    cases rest with
    | nil =>
      rcases List.mem_cons.mp ht with rfl | hmem
      · exact hv
      · cases hmem
    | cons b rest2 =>
      rcases List.mem_cons.mp ht with rfl | hmem
      · exact HasTy.unionL _ _ _ hv
      · exact HasTy.unionR _ _ _ (ih t hmem hv)

/-- Introduce an object typing from per-member witnesses. -/
theorem obj_mems {E : List (String × Ty)} {fields : List (String × Val)} :
    ∀ (ms : List Mem),
      (∀ m ∈ ms, ∃ fv, lookupField fields m.1 = some fv ∧ HasTy E fv m.2.2.2) →
      HasTy E (.obj fields) (.anonObj (tyMems ms)) := by
  intro ms
  induction ms with
  | nil => intro _; exact HasTy.objNil fields
  | cons m rest ih =>
    intro h
    obtain ⟨fv, hf, hty⟩ := h m (List.mem_cons_self m rest)
    exact HasTy.objConsP fields m.1 m.2.1 m.2.2.1 m.2.2.2 (tyMems rest) fv hf hty
      (ih fun m2 hm2 => h m2 (List.mem_cons_of_mem m hm2))

/-- If a named type resolves to an interface whose tag member is a
string literal, then any value of the named type that holds a tag
string holds that literal. -/
theorem comp_leaf {E : List (String × Ty)} {v : Val} {s lit s2 : String}
    {o ro : Bool} {c : Ty}
    (hlk : alookup E s = some (.anonObj c))
    (hfm : findMemChain c "tag" = some (o, ro, .strLit lit))
    (h : HasTy E v (.named s)) (htag : tagOf v = some s2) : s2 = lit := by
  obtain ⟨t2, hlk2, ht⟩ := named_inv h
  rw [hlk] at hlk2
  obtain rfl := Option.some.inj hlk2
  obtain ⟨fields, rfl⟩ := anon_obj_val ht
  rcases mem_opt c fields "tag" o ro (.strLit lit) ht hfm with hnone | ⟨fv, hf, hty⟩
  · rw [tagOf, hnone] at htag; cases htag
  · obtain rfl := strLit_inv hty
    rw [tagOf, hf] at htag
    exact (Option.some.inj htag).symm

/-!
Supporting definitions for the claims: the twenty tag literals, sample
component and vector values, and their typing derivations.
-/

/-- The twenty variant interfaces paired with their declared tag string
literals, in union order. -/
def variantTagPairs : List (String × String) :=
  [("Anchor", "anchor"), ("AreaComp", "area"), ("BodyComp", "body"),
   ("ColorComp", "color"), ("DoubleJumpComp", "double_jump"),
   ("FadeInComp", "fadein"), ("Fixed", "fixed"), ("HealthComp", "health"),
   ("Lifespan", "lifespan"), ("Move", "move"), ("Offscreen", "offscreen"),
   ("Opacity", "opacity"), ("Pos", "pos"), ("Rotate", "rotate"),
   ("Scale", "scale"), ("Sprite", "sprite"), ("Stay", "stay"),
   ("Text", "text"), ("Timer", "timer"), ("Z", "z")]

/-- The twenty tag string literals, in union order. -/
def twentyTags : List String := variantTagPairs.map Prod.snd

/-- Any value of a union of named interface types whose tag members are
string literals carries, if it holds a tag string at all, one of those
literals. -/
theorem comp_union_tags {E : List (String × Ty)} {v : Val} {s2 : String} :
    ∀ (pairs : List (String × String)) (p0 : String × String),
      (∀ p ∈ p0 :: pairs, ∃ (o ro : Bool) (c : Ty),
          alookup E p.1 = some (.anonObj c) ∧
          findMemChain c "tag" = some (o, ro, .strLit p.2)) →
      HasTy E v (tyU ((p0 :: pairs).map (fun p => Ty.named p.1))) →
      tagOf v = some s2 → s2 ∈ (p0 :: pairs).map Prod.snd := by
  intro pairs
  induction pairs with
  | nil =>
    intro p0 hp h htag
    obtain ⟨o, ro, c, hlk, hfm⟩ := hp p0 (List.mem_cons_self p0 [])
    rw [comp_leaf hlk hfm h htag]
    exact List.mem_cons_self p0.2 []
  | cons p1 rest ih =>
    intro p0 hp h htag
    rcases union_inv h with h2 | h2
    · obtain ⟨o, ro, c, hlk, hfm⟩ := hp p0 (List.mem_cons_self p0 (p1 :: rest))
      rw [comp_leaf hlk hfm h2 htag]
      exact List.mem_cons_self p0.2 ((p1 :: rest).map Prod.snd)
    · exact List.mem_cons_of_mem p0.2
        (ih p1 (fun p hmem => hp p (List.mem_cons_of_mem p0 hmem)) h2 htag)

/-- A sample anchor component value. -/
def anchorVal : Val := .obj [("tag", .str "anchor")]

/-- A sample area component value. -/
def areaVal : Val :=
  .obj [("tag", .str "area"), ("get_collisions", .fnV), ("check_collision", .fnV),
        ("on_collide", .fnV), ("on_click", .fnV), ("has_point", .fnV)]

/-- A sample body component value, carrying no area and no pos component. -/
def bodyVal : Val :=
  .obj [("tag", .str "body"), ("jump", .fnV), ("is_jumping", .boolV false),
        ("is_grounded", .boolV true), ("is_falling", .boolV false),
        ("is_static", .boolV false), ("jump_force", .num 800)]

/-- A sample Vec2 value. -/
def vec2Val : Val :=
  .obj [("x", .num 3), ("y", .num 4), ("z", .num 0),
        ("__type", .foreignV "vmath.vector3"), ("dist", .fnV)]

/-- The sample anchor value is a BoomComponent under version 1. -/
theorem anchorVal_v1 : HasTy envV1 anchorVal (.named "BoomComponent") := by
  apply HasTy.namedI _ _ _
    (show alookup envV1 "BoomComponent" = some (tyU (variantNames.map .named)) from rfl)
  apply tyU_mem (variantNames.map .named) (.named "Anchor") (by decide)
  apply HasTy.namedI _ _ _
    (show alookup envV1 "Anchor" = some (tyObj anchorMemsV1) from rfl)
  apply obj_mems anchorMemsV1
  intro m hm
  fin_cases hm
  exact ⟨_, rfl, HasTy.strLitI _⟩

/-- The sample area value is a BoomComponent under version 2. -/
theorem areaVal_v2 : HasTy envV2 areaVal (.named "BoomComponent") := by
  apply HasTy.namedI _ _ _
    (show alookup envV2 "BoomComponent" = some (tyU (variantNames.map .named)) from rfl)
  apply tyU_mem (variantNames.map .named) (.named "AreaComp") (by decide)
  apply HasTy.namedI _ _ _
    (show alookup envV2 "AreaComp" = some (tyObj areaMemsV2) from rfl)
  apply obj_mems areaMemsV2
  intro m hm
  fin_cases hm
  · exact ⟨_, rfl, HasTy.strLitI _⟩
  · exact ⟨_, rfl, HasTy.fnI _ _⟩
  · exact ⟨_, rfl, HasTy.fnI _ _⟩
  · exact ⟨_, rfl, HasTy.fnI _ _⟩
  · exact ⟨_, rfl, HasTy.fnI _ _⟩
  · exact ⟨_, rfl, HasTy.fnI _ _⟩

/-- The sample body value is a BoomComponent under version 1. -/
theorem bodyVal_v1 : HasTy envV1 bodyVal (.named "BoomComponent") := by
  apply HasTy.namedI _ _ _
    (show alookup envV1 "BoomComponent" = some (tyU (variantNames.map .named)) from rfl)
  apply tyU_mem (variantNames.map .named) (.named "BodyComp") (by decide)
  apply HasTy.namedI _ _ _
    (show alookup envV1 "BodyComp" = some (tyObj bodyMemsV1) from rfl)
  apply obj_mems bodyMemsV1
  intro m hm
  fin_cases hm
  · exact ⟨_, rfl, HasTy.strLitI _⟩
  · exact ⟨_, rfl, HasTy.fnI _ _⟩
  · exact ⟨_, rfl, HasTy.boolI _⟩
  · exact ⟨_, rfl, HasTy.boolI _⟩
  · exact ⟨_, rfl, HasTy.boolI _⟩
  · exact ⟨_, rfl, HasTy.boolI _⟩
  · exact ⟨_, rfl, HasTy.numI _⟩

/-- The sample body value is a BoomComponent under version 2. -/
theorem bodyVal_v2 : HasTy envV2 bodyVal (.named "BoomComponent") := by
  apply HasTy.namedI _ _ _
    (show alookup envV2 "BoomComponent" = some (tyU (variantNames.map .named)) from rfl)
  apply tyU_mem (variantNames.map .named) (.named "BodyComp") (by decide)
  apply HasTy.namedI _ _ _
    (show alookup envV2 "BodyComp" = some (tyObj bodyMemsV2) from rfl)
  apply obj_mems bodyMemsV2
  intro m hm
  fin_cases hm
  · exact ⟨_, rfl, HasTy.strLitI _⟩
  · exact ⟨_, rfl, HasTy.fnI _ _⟩
  · exact ⟨_, rfl, HasTy.boolI _⟩
  · exact ⟨_, rfl, HasTy.boolI _⟩
  · exact ⟨_, rfl, HasTy.boolI _⟩
  · exact ⟨_, rfl, HasTy.boolI _⟩
  · exact ⟨_, rfl, HasTy.numI _⟩

/-- The sample vector value is a Vec2 under version 1. -/
theorem vec2Val_v1 : HasTy envV1 vec2Val (.named "Vec2") := by
  apply HasTy.namedI _ _ _
    (show alookup envV1 "Vec2" = some (tyObj vec2Mems) from rfl)
  apply obj_mems vec2Mems
  intro m hm
  fin_cases hm
  · exact ⟨_, rfl, HasTy.numI _⟩
  · exact ⟨_, rfl, HasTy.numI _⟩
  · exact ⟨_, rfl, HasTy.numLitI _⟩
  · exact ⟨_, rfl, HasTy.foreignI _⟩
  · exact ⟨_, rfl, HasTy.fnI _ _⟩

/-!
The claims.
-/

/-- C1: in both versions the BoomComponent type is a union of exactly
twenty variants (Anchor, AreaComp, BodyComp, ColorComp, DoubleJumpComp,
FadeInComp, Fixed, HealthComp, Lifespan, Move, Offscreen, Opacity, Pos,
Rotate, Scale, Sprite, Stay, Text, Timer, Z), whose tag members are the
twenty pairwise distinct string literals anchor, area, body, color,
double_jump, fadein, fixed, health, lifespan, move, offscreen, opacity,
pos, rotate, scale, sprite, stay, text, timer, z — in particular
double_jump for the spec name double-jump, fadein for fade-in, pos for
position and z for z-order; and every value of the BoomComponent type
that holds a tag string at all holds one of these twenty literals. -/
theorem C1_component_union_of_twenty :
    (alookup aliasesV1 "BoomComponent" = some (tyU (variantNames.map .named)) ∧
     alookup aliasesV2 "BoomComponent" = some (tyU (variantNames.map .named)) ∧
     variantNames.length = 20 ∧
     variantsV1.map Prod.fst = variantNames ∧
     variantsV2.map Prod.fst = variantNames ∧
     variantTagPairs.map Prod.fst = variantNames ∧
     (variantsV1.map fun p => (findMem p.2 "tag").map fun q => q.2.2) =
       twentyTags.map (fun s => some (Ty.strLit s)) ∧
     (variantsV2.map fun p => (findMem p.2 "tag").map fun q => q.2.2) =
       twentyTags.map (fun s => some (Ty.strLit s)) ∧
     twentyTags.Nodup) ∧
    (∀ v s2, HasTy envV1 v (.named "BoomComponent") → tagOf v = some s2 →
      s2 ∈ twentyTags) ∧
    (∀ v s2, HasTy envV2 v (.named "BoomComponent") → tagOf v = some s2 →
      s2 ∈ twentyTags) := by
  refine ⟨by decide, ?_, ?_⟩
  · intro v s2 h htag
    obtain ⟨t, hlk, ht⟩ := named_inv h
    rw [show alookup envV1 "BoomComponent" = some (tyU (variantNames.map .named))
      from rfl] at hlk
    obtain rfl := Option.some.inj hlk
    exact comp_union_tags
      [("AreaComp", "area"), ("BodyComp", "body"), ("ColorComp", "color"),
       ("DoubleJumpComp", "double_jump"), ("FadeInComp", "fadein"), ("Fixed", "fixed"),
       ("HealthComp", "health"), ("Lifespan", "lifespan"), ("Move", "move"),
       ("Offscreen", "offscreen"), ("Opacity", "opacity"), ("Pos", "pos"),
       ("Rotate", "rotate"), ("Scale", "scale"), ("Sprite", "sprite"),
       ("Stay", "stay"), ("Text", "text"), ("Timer", "timer"), ("Z", "z")]
      ("Anchor", "anchor")
      (by intro p hp; fin_cases hp <;> exact ⟨_, _, _, rfl, rfl⟩)
      ht htag
  · intro v s2 h htag
    obtain ⟨t, hlk, ht⟩ := named_inv h
    rw [show alookup envV2 "BoomComponent" = some (tyU (variantNames.map .named))
      from rfl] at hlk
    obtain rfl := Option.some.inj hlk
    exact comp_union_tags
      [("AreaComp", "area"), ("BodyComp", "body"), ("ColorComp", "color"),
       ("DoubleJumpComp", "double_jump"), ("FadeInComp", "fadein"), ("Fixed", "fixed"),
       ("HealthComp", "health"), ("Lifespan", "lifespan"), ("Move", "move"),
       ("Offscreen", "offscreen"), ("Opacity", "opacity"), ("Pos", "pos"),
       ("Rotate", "rotate"), ("Scale", "scale"), ("Sprite", "sprite"),
       ("Stay", "stay"), ("Text", "text"), ("Timer", "timer"), ("Z", "z")]
      ("Anchor", "anchor")
      (by intro p hp; fin_cases hp <;> exact ⟨_, _, _, rfl, rfl⟩)
      ht htag

/-- C1 witness: the sample anchor value (version 1 typing) and the
sample area value (version 2 typing) carry tags from the twenty. -/
theorem C1_witness : "anchor" ∈ twentyTags ∧ "area" ∈ twentyTags :=
  ⟨C1_component_union_of_twenty.2.1 anchorVal "anchor" anchorVal_v1 rfl,
   C1_component_union_of_twenty.2.2 areaVal "area" areaVal_v2 rfl⟩

/-- C2 as claimed: in every one of the twenty component variant
interfaces (both versions), every declared field and method except the
tag is optional, the tag is present in each variant, and the tag is the
only member name shared by all twenty variants. -/
def c2_claim : Prop :=
  (∀ p ∈ variantsV1, ∀ m ∈ p.2, m.1 ≠ "tag" → m.2.1 = true) ∧
  (∀ p ∈ variantsV2, ∀ m ∈ p.2, m.1 ≠ "tag" → m.2.1 = true) ∧
  (∀ p ∈ variantsV1, (findMem p.2 "tag").isSome) ∧
  (∀ p ∈ variantsV2, (findMem p.2 "tag").isSome) ∧
  (variantsV1.all fun p => p.2.all fun m =>
    (m.1 == "tag") || !(variantsV1.all fun q => (findMem q.2 m.1).isSome)) = true ∧
  (variantsV2.all fun p => p.2.all fun m =>
    (m.1 == "tag") || !(variantsV2.all fun q => (findMem q.2 m.1).isSome)) = true

/-- C2 counterexample: AreaComp.get_collisions (version 1) is a declared
method other than the tag that is not optional, so c2_claim fails. -/
theorem C2_cex : ¬ c2_claim := by
  intro h
  have h2 := h.1 ("AreaComp", areaMemsV1) (by decide)
    ("get_collisions", false, false,
      tyFn [] (tyU [.arr (.named "Collision"), .luaSet (.named "Collision")]))
    (by decide) (by decide)
  exact Bool.noConfusion h2

/-- C2 amended: in version 1 every member of every variant is required;
in version 2 a member is optional exactly when it is the tag; the tag
member is present in every variant; and in both versions the tag is the
only member name shared by all twenty variants. -/
theorem C2_members_required_tag_shared :
    (variantsV1.all fun p => p.2.all fun m => m.2.1 == false) = true ∧
    (variantsV2.all fun p => p.2.all fun m => m.2.1 == (m.1 == "tag")) = true ∧
    (variantsV1.all fun p => (findMem p.2 "tag").isSome) = true ∧
    (variantsV2.all fun p => (findMem p.2 "tag").isSome) = true ∧
    (variantsV1.all fun p => p.2.all fun m =>
      (m.1 == "tag") || !(variantsV1.all fun q => (findMem q.2 m.1).isSome)) = true ∧
    (variantsV2.all fun p => p.2.all fun m =>
      (m.1 == "tag") || !(variantsV2.all fun q => (findMem q.2 m.1).isSome)) = true := by
  decide

/-- C3 as claimed: every API entry (function signature, type alias, or
interface member) declared in both versions has the same signature —
same parameter types, same optionality, same return type — where
sameness is equality after expanding type aliases (ex1/ex2), since the
two versions name their callback aliases differently. -/
def c3_claim : Prop :=
  (∀ p ∈ funcsV1, ∀ q ∈ funcsV2, p.1 = q.1 → ex1 p.2 = ex2 q.2) ∧
  (∀ p ∈ aliasesV1, ∀ q ∈ aliasesV2, p.1 = q.1 → ex1 p.2 = ex2 q.2) ∧
  (∀ i ∈ ifacesV1, ∀ j ∈ ifacesV2, i.1 = j.1 →
    ∀ m ∈ i.2, ∀ m2 ∈ j.2, m.1 = m2.1 →
      m.2.1 = m2.2.1 ∧ m.2.2.1 = m2.2.2.1 ∧ ex1 m.2.2.2 = ex2 m2.2.2.2)

/-- C3 counterexample: the tag field of Anchor is required in version 1
and optional in version 2, so the two versions do not agree on all
shared entries; in particular a tag field named by the claim differs. -/
theorem C3_cex : ¬ c3_claim := by
  intro h
  have h2 := (h.2.2 ("Anchor", anchorMemsV1) (by decide) ("Anchor", anchorMemsV2)
    (by decide) rfl ("tag", false, true, .strLit "anchor") (by decide)
    ("tag", true, true, .strLit "anchor") (by decide) rfl).1
  exact Bool.noConfusion h2

/-- The shared function signatures that differ between the versions. -/
def diffFuncs : List String :=
  ["add", "move", "add_level", "on_collide", "on_key_press", "on_key_release",
   "on_click"]

/-- The shared interface members that differ between the versions: the
game object methods add and use, the area component collision members,
and the tag field of each of the twenty variants. -/
def diffMems : List (String × String) :=
  [("BoomBlankGameObject", "add"), ("BoomBlankGameObject", "use"),
   ("AreaComp", "get_collisions"), ("AreaComp", "check_collision"),
   ("AreaComp", "on_collide"), ("AreaComp", "on_click")]
  ++ variantNames.map (fun n => (n, "tag"))

/-- C3 amended: after alias expansion, every entry declared in both
versions agrees (same parameter types, optionality and return type)
except exactly these: the functions add, move, add_level, on_collide,
on_key_press, on_key_release and on_click; the alias BoomTiles; the
game object members add and use; the area component members
get_collisions, check_collision, on_collide and on_click; and the tag
field of every one of the twenty variants (required versus optional).
In particular, of the entries the original claim names, only the
member signatures other than these agree; use, on_key_press,
on_key_release, the function move and the tag fields all changed.
Every version 2 function except the new from_hex also exists in
version 1. -/
theorem C3_shared_signatures :
    (funcsV1.all fun p =>
      match alookup funcsV2 p.1 with
      | none => true
      | some q => (ex1 p.2 == ex2 q) == !(diffFuncs.contains p.1)) = true ∧
    (aliasesV1.all fun p =>
      match alookup aliasesV2 p.1 with
      | none => true
      | some q => (ex1 p.2 == ex2 q) == !(p.1 == "BoomTiles")) = true ∧
    (ifacesV1.all fun i =>
      match alookup ifacesV2 i.1 with
      | none => true
      | some ms2 => i.2.all fun m =>
          match findMem ms2 m.1 with
          | none => false
          | some q =>
            ((m.2.1 == q.1) && (m.2.2.1 == q.2.1) && (ex1 m.2.2.2 == ex2 q.2.2))
              == !(diffMems.contains (i.1, m.1))) = true ∧
    (funcsV2.all fun p => p.1 == "from_hex" || (alookup funcsV1 p.1).isSome) = true := by
  decide

/-- C4: no invariant ties body to area and pos. The declared signature
of body only takes the options object (jump_force, is_static) and the
declared parameter of add is the plain component set type, so any list
of component values — in particular one containing a body component and
neither an area nor a pos component (witnessed by the absence of those
tags) — is accepted by the declared parameter type of add, in both
versions. -/
theorem C4_no_body_constraint :
    alookup funcsV1 "body" =
      some (tyFn [(true, tyObj [("jump_force", true, false, .num),
        ("is_static", true, false, .boolT)])] (.named "BodyComp")) ∧
    alookup funcsV2 "body" =
      some (tyFn [(true, tyObj [("jump_force", true, false, .num),
        ("is_static", true, false, .boolT)])] (.named "BodyComp")) ∧
    alookup funcsV1 "add" =
      some (tyFn [(false, .named "BoomComponentSet")] (.named "BoomGameObject")) ∧
    alookup funcsV2 "add" =
      some (tyFn [(false, .named "BoomComponentOrTagSet")] (.named "BoomGameObject")) ∧
    (∀ l : List Val, (∀ v ∈ l, HasTy envV1 v (.named "BoomComponent")) →
      (∃ v ∈ l, tagOf v = some "body") →
      (¬ ∃ v ∈ l, tagOf v = some "area") →
      (¬ ∃ v ∈ l, tagOf v = some "pos") →
      HasTy envV1 (.arrV l) (.named "BoomComponentSet")) ∧
    (∀ l : List Val, (∀ v ∈ l, HasTy envV2 v (.named "BoomComponent")) →
      (∃ v ∈ l, tagOf v = some "body") →
      (¬ ∃ v ∈ l, tagOf v = some "area") →
      (¬ ∃ v ∈ l, tagOf v = some "pos") →
      HasTy envV2 (.arrV l) (.named "BoomComponentOrTagSet")) := by
  refine ⟨rfl, rfl, rfl, rfl, ?_, ?_⟩
  · intro l hl _ _ _
    apply HasTy.namedI _ _ _
      (show alookup envV1 "BoomComponentSet" =
        some (tyU [.arr (.named "BoomComponent"), .luaSet (.named "BoomComponent")])
        from rfl)
    apply tyU_mem [.arr (.named "BoomComponent"), .luaSet (.named "BoomComponent")]
      (.arr (.named "BoomComponent")) (by decide)
    exact HasTy.arrI l _ hl
  · intro l hl _ _ _
    apply HasTy.namedI _ _ _
      (show alookup envV2 "BoomComponentOrTagSet" =
        some (tyU [.arr (tyU [.named "BoomComponent", .named "BoomTag"]),
                   .luaSet (tyU [.named "BoomComponent", .named "BoomTag"])])
        from rfl)
    apply tyU_mem [.arr (tyU [.named "BoomComponent", .named "BoomTag"]),
                   .luaSet (tyU [.named "BoomComponent", .named "BoomTag"])]
      (.arr (tyU [.named "BoomComponent", .named "BoomTag"])) (by decide)
    apply HasTy.arrI
    intro v hv
    exact tyU_mem [.named "BoomComponent", .named "BoomTag"]
      (.named "BoomComponent") (by decide) (hl v hv)

/-- C4 witness: the singleton list holding only the sample body value —
which has tag body, and no element tagged area or pos — is accepted by
the declared parameter type of add in both versions. -/
theorem C4_witness :
    HasTy envV1 (.arrV [bodyVal]) (.named "BoomComponentSet") ∧
    HasTy envV2 (.arrV [bodyVal]) (.named "BoomComponentOrTagSet") := by
  constructor
  · apply C4_no_body_constraint.2.2.2.2.1 [bodyVal]
    · intro v hv
      obtain rfl := List.mem_singleton.mp hv
      exact bodyVal_v1
    · exact ⟨bodyVal, List.mem_singleton.mpr rfl, rfl⟩
    · rintro ⟨v, hv, hp⟩
      obtain rfl := List.mem_singleton.mp hv
      exact absurd hp (by decide)
    · rintro ⟨v, hv, hp⟩
      obtain rfl := List.mem_singleton.mp hv
      exact absurd hp (by decide)
  · apply C4_no_body_constraint.2.2.2.2.2 [bodyVal]
    · intro v hv
      obtain rfl := List.mem_singleton.mp hv
      exact bodyVal_v2
    · exact ⟨bodyVal, List.mem_singleton.mpr rfl, rfl⟩
    · rintro ⟨v, hv, hp⟩
      obtain rfl := List.mem_singleton.mp hv
      exact absurd hp (by decide)
    · rintro ⟨v, hv, hp⟩
      obtain rfl := List.mem_singleton.mp hv
      exact absurd hp (by decide)

/-- C5: in both versions the game object interface declares the four
lifecycle methods with the stated roles — add takes the component set
and returns a game object, destroy takes nothing and returns void, use
takes the component argument (typed object in version 1 and
BoomComponent in version 2), and unuse takes a tag (string in version
1, BoomTag = string in version 2). -/
theorem C5_lifecycle_methods :
    findMem goMemsV1 "add" =
      some (false, false, tyFn [(false, .named "BoomComponentSet")]
        (.named "BoomGameObject")) ∧
    findMem goMemsV1 "destroy" = some (false, false, tyFn [] .voidT) ∧
    findMem goMemsV1 "use" = some (false, false, tyFn [(false, .objectT)] .voidT) ∧
    findMem goMemsV1 "unuse" = some (false, false, tyFn [(false, .str)] .voidT) ∧
    findMem goMemsV2 "add" =
      some (false, false, tyFn [(false, .named "BoomComponentOrTagSet")]
        (.named "BoomGameObject")) ∧
    findMem goMemsV2 "destroy" = some (false, false, tyFn [] .voidT) ∧
    findMem goMemsV2 "use" =
      some (false, false, tyFn [(false, .named "BoomComponent")] .voidT) ∧
    findMem goMemsV2 "unuse" =
      some (false, false, tyFn [(false, .named "BoomTag")] .voidT) ∧
    alookup aliasesV2 "BoomTag" = some .str := by
  decide

/-- C6 as claimed: the game object interface declares fields id, comps,
tags and dirty, and the comps field is mutable, that is, not declared
readonly. -/
def c6_claim : Prop :=
  (findMem goMemsV1 "id").isSome ∧ (findMem goMemsV1 "comps").isSome ∧
  (findMem goMemsV1 "tags").isSome ∧ (findMem goMemsV1 "dirty").isSome ∧
  (findMem goMemsV2 "id").isSome ∧ (findMem goMemsV2 "comps").isSome ∧
  (findMem goMemsV2 "tags").isSome ∧ (findMem goMemsV2 "dirty").isSome ∧
  ((findMem goMemsV1 "comps").map fun q => q.2.1) = some false ∧
  ((findMem goMemsV2 "comps").map fun q => q.2.1) = some false

/-- C6 counterexample: comps is declared readonly in both versions, so
the mutability part of the claim fails. -/
theorem C6_cex : ¬ c6_claim := by
  unfold c6_claim
  decide

/-- C6 amended: the game object interface declares the fields id, comps,
tags and dirty in both versions, but all four — comps included — are
declared readonly; the mutability of the component set resides in the
LuaMap value the field holds, not in the field binding. -/
theorem C6_fields_declared_comps_readonly :
    findMem goMemsV1 "id" = some (false, true, .foreign "hash") ∧
    findMem goMemsV1 "comps" =
      some (false, true, .luaMap (tyU [.str, .num]) (.luaMap .str .unknownT)) ∧
    findMem goMemsV1 "tags" =
      some (false, true, .luaMap (tyU [.str, .foreign "hash"]) .boolT) ∧
    findMem goMemsV1 "dirty" = some (false, true, .boolT) ∧
    findMem goMemsV2 "id" = some (false, true, .foreign "hash") ∧
    findMem goMemsV2 "comps" =
      some (false, true, .luaMap (tyU [.str, .num]) (.luaMap .str .unknownT)) ∧
    findMem goMemsV2 "tags" =
      some (false, true, .luaMap (tyU [.str, .foreign "hash"]) .boolT) ∧
    findMem goMemsV2 "dirty" = some (false, true, .boolT) := by
  decide

/-- The declared type of a member that is a function, by name. -/
def memFnTy (ms : List Mem) (n : String) : Option Ty :=
  (findMem ms n).map fun q => q.2.2

/-- The type of the i-th parameter of a function type. -/
def paramTy (t : Ty) (i : Nat) : Option Ty :=
  ((paramsOf t).get? i).map Prod.snd

/-- The type of the i-th parameter of a declared function, by name. -/
def funcParamTy (fs : List (String × Ty)) (n : String) (i : Nat) : Option Ty :=
  (alookup fs n).bind fun t => paramTy t i

/-- The type of the i-th parameter of an interface method, by name. -/
def memParamTy (ms : List Mem) (n : String) (i : Nat) : Option Ty :=
  (memFnTy ms n).bind fun t => paramTy t i

/-- C7 as claimed: every tag parameter of is, unuse, c, get, every,
destroy_all and on_collide has declared type string (after expanding
the BoomTag alias in version 2), and the keys of the tags map admit
only string identifiers. -/
def c7_claim : Prop :=
  memParamTy goMemsV1 "is" 0 = some .str ∧
  memParamTy goMemsV1 "unuse" 0 = some .str ∧
  memParamTy goMemsV1 "c" 0 = some .str ∧
  (memParamTy goMemsV2 "is" 0).map ex2 = some .str ∧
  (memParamTy goMemsV2 "unuse" 0).map ex2 = some .str ∧
  (memParamTy goMemsV2 "c" 0).map ex2 = some .str ∧
  funcParamTy funcsV1 "get" 0 = some .str ∧
  funcParamTy funcsV1 "every" 0 = some .str ∧
  funcParamTy funcsV1 "destroy_all" 0 = some .str ∧
  funcParamTy funcsV1 "on_collide" 0 = some .str ∧
  funcParamTy funcsV1 "on_collide" 1 = some .str ∧
  funcParamTy funcsV2 "get" 0 = some .str ∧
  funcParamTy funcsV2 "every" 0 = some .str ∧
  funcParamTy funcsV2 "destroy_all" 0 = some .str ∧
  funcParamTy funcsV2 "on_collide" 0 = some .str ∧
  funcParamTy funcsV2 "on_collide" 1 = some .str ∧
  memFnTy goMemsV1 "tags" = some (.luaMap .str .boolT) ∧
  memFnTy goMemsV2 "tags" = some (.luaMap .str .boolT)

/-- C7 counterexample: the tags map keys are declared string or hash,
not only string (and the second tag of on_collide admits undefined), so
c7_claim fails. -/
theorem C7_cex : ¬ c7_claim := by
  unfold c7_claim
  decide

/-- C7 amended: BoomTag = string and all single tag parameters of is,
unuse, c, get, every, destroy_all and the first tag of on_collide are
strings; but the second tag of on_collide is declared string or
undefined, and the keys of the tags map are declared string or hash. -/
theorem C7_tags_are_strings :
    alookup aliasesV2 "BoomTag" = some .str ∧
    memParamTy goMemsV1 "is" 0 = some .str ∧
    memParamTy goMemsV1 "unuse" 0 = some .str ∧
    memParamTy goMemsV1 "c" 0 = some .str ∧
    (memParamTy goMemsV2 "is" 0).map ex2 = some .str ∧
    (memParamTy goMemsV2 "unuse" 0).map ex2 = some .str ∧
    (memParamTy goMemsV2 "c" 0).map ex2 = some .str ∧
    funcParamTy funcsV1 "get" 0 = some .str ∧
    funcParamTy funcsV1 "every" 0 = some .str ∧
    funcParamTy funcsV1 "destroy_all" 0 = some .str ∧
    funcParamTy funcsV1 "on_collide" 0 = some .str ∧
    funcParamTy funcsV1 "on_collide" 1 = some (tyU [.str, .undef]) ∧
    funcParamTy funcsV2 "get" 0 = some .str ∧
    funcParamTy funcsV2 "every" 0 = some .str ∧
    funcParamTy funcsV2 "destroy_all" 0 = some .str ∧
    funcParamTy funcsV2 "on_collide" 0 = some .str ∧
    funcParamTy funcsV2 "on_collide" 1 = some (tyU [.str, .undef]) ∧
    memFnTy goMemsV1 "tags" =
      some (.luaMap (tyU [.str, .foreign "hash"]) .boolT) ∧
    memFnTy goMemsV2 "tags" =
      some (.luaMap (tyU [.str, .foreign "hash"]) .boolT) := by
  decide

/-- C8: the repository contains no executable logic — every top-level
construct of both versions of the declaration file is an ambient,
compile-time-only declaration (function signature, interface, type
alias, constant, namespace or module of such), with no function body,
no statement and no runtime initializer. -/
theorem C8_all_ambient : allAmbient fileV1 = true ∧ allAmbient fileV2 = true := by
  decide

/-- C9: in both versions the Vec2 type pins its z field to the readonly
literal 0; the API entries producing or consuming 2D vectors (vec2,
mouse_pos, cam_pos, center, the version 2 constants UP, RIGHT, DOWN and
LEFT, the namespace vec2 constants, and the pos and vel members of the
Pos component) are declared with type Vec2; hence every value of the
Vec2 type holds 0 in its z field. -/
theorem C9_vec2_z_zero :
    (alookup aliasesV1 "Vec2" = some (tyObj vec2Mems) ∧
     alookup aliasesV2 "Vec2" = some (tyObj vec2Mems) ∧
     findMem vec2Mems "z" = some (false, true, .numLit 0) ∧
     (alookup funcsV1 "vec2").bind fnRet = some (.named "Vec2") ∧
     (alookup funcsV1 "mouse_pos").bind fnRet = some (.named "Vec2") ∧
     (alookup funcsV1 "cam_pos").bind fnRet = some (.named "Vec2") ∧
     (alookup funcsV1 "center").bind fnRet = some (.named "Vec2") ∧
     (alookup funcsV2 "vec2").bind fnRet = some (.named "Vec2") ∧
     (alookup funcsV2 "mouse_pos").bind fnRet = some (.named "Vec2") ∧
     (alookup funcsV2 "cam_pos").bind fnRet = some (.named "Vec2") ∧
     (alookup funcsV2 "center").bind fnRet = some (.named "Vec2") ∧
     findMem posMemsV1 "pos" = some (false, true, .named "Vec2") ∧
     findMem posMemsV1 "vel" = some (false, true, .named "Vec2") ∧
     findMem posMemsV2 "pos" = some (false, true, .named "Vec2") ∧
     findMem posMemsV2 "vel" = some (false, true, .named "Vec2") ∧
     alookup constsV2 "UP" = some (.named "Vec2") ∧
     alookup constsV2 "RIGHT" = some (.named "Vec2") ∧
     alookup constsV2 "DOWN" = some (.named "Vec2") ∧
     alookup constsV2 "LEFT" = some (.named "Vec2") ∧
     vec2NsV1 = vec2NsV2) ∧
    (∀ v, HasTy envV1 v (.named "Vec2") → vZ v = some (.num 0)) ∧
    (∀ v, HasTy envV2 v (.named "Vec2") → vZ v = some (.num 0)) := by
  have key : ∀ (E : List (String × Ty)) (v : Val),
      alookup E "Vec2" = some (tyObj vec2Mems) →
      HasTy E v (.named "Vec2") → vZ v = some (.num 0) := by
    intro E v hE h
    obtain ⟨t, hlk, ht⟩ := named_inv h
    rw [hE] at hlk
    obtain rfl := Option.some.inj hlk
    obtain ⟨fields, rfl⟩ := anon_obj_val ht
    obtain ⟨fv, hf, hty⟩ :=
      mem_req (tyMems vec2Mems) fields "z" true (.numLit 0) ht rfl
    obtain rfl := numLit_inv hty
    simp only [vZ]
    exact hf
  exact ⟨⟨rfl, rfl, rfl, rfl, rfl, rfl, rfl, rfl, rfl, rfl, rfl, rfl, rfl, rfl,
    rfl, rfl, rfl, rfl, rfl, rfl⟩,
    fun v h => key envV1 v rfl h, fun v h => key envV2 v rfl h⟩

/-- C9 witness: the sample vector value, typed as Vec2 under version 1,
holds 0 in its z field. -/
theorem C9_witness : vZ vec2Val = some (.num 0) :=
  C9_vec2_z_zero.2.1 vec2Val vec2Val_v1

/-- C10: in both versions the point parameter of AreaComp.has_point is
declared with type undefined, and the only value of type undefined is
the undefined value, so no actual point can be passed in a type-correct
call. -/
theorem C10_has_point_undefined :
    findMem areaMemsV1 "has_point" =
      some (false, false, tyFn [(false, .undef)] .boolT) ∧
    findMem areaMemsV2 "has_point" =
      some (false, false, tyFn [(false, .undef)] .boolT) ∧
    (∀ v, HasTy envV1 v .undef → v = .undefV) ∧
    (∀ v, HasTy envV2 v .undef → v = .undefV) :=
  ⟨rfl, rfl, fun _ h => undef_inv h, fun _ h => undef_inv h⟩

/-- C10 witness: the undefined value is the type-correct argument. -/
theorem C10_witness : Val.undefV = Val.undefV :=
  C10_has_point_undefined.2.2.1 .undefV HasTy.undefI
